import Mathlib

-- Shallow embedding of the core scraping pipeline of IndeedBot.get_job_posts
-- (src/IndeedBot.py): total-count discovery with a two-tier fallback, the
-- per-page pagination loop, per-card field extraction with best-effort
-- fallback handlers, detail-frame context switching, and CSV record appending.

namespace IndeedBot

/-- Characters stripped by Python str.strip with no argument:
space and the ASCII whitespace characters (tab, newline, vertical tab,
form feed, carriage return). -/
def isPySpace (c : Char) : Bool :=
  c == ' ' || (9 ≤ c.toNat && c.toNat ≤ 13)

/-- Python str.strip on a character list: drop whitespace from both ends. -/
def pyStripChars (l : List Char) : List Char :=
  ((l.dropWhile isPySpace).reverse.dropWhile isPySpace).reverse

/-- Python str.strip. -/
def pyStrip (s : String) : String :=
  ⟨pyStripChars s.data⟩

/-- One fuel-indexed pass of Python str.replace: replace every
non-overlapping occurrence of sub, scanning left to right. The fuel is the
length of the scanned list, so it never runs out on the intended calls. -/
def replaceFuel (sub repl : List Char) : Nat → List Char → List Char
  | _, [] => []
  | 0, l => l
  | fuel + 1, c :: rest =>
    if sub.isPrefixOf (c :: rest) && !sub.isEmpty then
      repl ++ replaceFuel sub repl fuel ((c :: rest).drop sub.length)
    else
      c :: replaceFuel sub repl fuel rest

/-- Python str.replace old-to-new on all occurrences. -/
def pyReplace (s sub repl : String) : String :=
  ⟨replaceFuel sub.data repl.data s.data.length s.data⟩

/-- Maximal runs of ASCII digits, accumulator form:
the model of re.findall with the digit-run pattern. -/
def digitRunsAux : List Char → List Char → List (List Char)
  | [], cur => if cur.isEmpty then [] else [cur.reverse]
  | c :: rest, cur =>
    if c.isDigit then digitRunsAux rest (c :: cur)
    else if cur.isEmpty then digitRunsAux rest []
    else cur.reverse :: digitRunsAux rest []

/-- Maximal digit runs of a character list, in order of appearance. -/
def digitRuns (l : List Char) : List (List Char) :=
  digitRunsAux l []

/-- Python int on a nonempty string of decimal digits. -/
def natOfDigits (l : List Char) : Nat :=
  l.foldl (fun n c => 10 * n + (c.toNat - 48)) 0

/-- The count-indicator text processing of get_job_posts (lines 205-208 and
216-218): remove commas, then the text Page 1 of, then the text jobs; take
the first digit run found; absence of any digit run raised an IndexError in
the source, modelled as none. -/
def parseTotalJobs (text : String) : Option Nat :=
  let t := pyReplace (pyReplace (pyReplace text "," "") "Page 1 of" "") "jobs" ""
  (digitRuns t.data).head?.map natOfDigits

/-- Python round(n / 10) for a natural n: round to nearest with ties to
even, which is what CPython computes for these magnitudes (every tie
n/10 = q + 1/2 is an exact double here). -/
def pythonRound10 (n : Nat) : Nat :=
  let q := n / 10
  let r := n % 10
  if r < 5 then q
  else if 5 < r then q + 1
  else if q % 2 = 0 then q else q + 1

/-- Total-count discovery of get_job_posts (lines 202-223): try the primary
count indicator; if its text is absent or unparsable, try the secondary
legacy indicator; if that also fails, fall back to 25 pages. Each argument
is the indicator text when the corresponding wait-and-find succeeded. -/
def discoverPages (primary secondary : Option String) : Nat :=
  match primary.bind parseTotalJobs with
  | some n => pythonRound10 n
  | none =>
    match secondary.bind parseTotalJobs with
    | some n => pythonRound10 n
    | none => 25

/-- CSS selector of the primary count indicator (line 204). -/
def primaryCountSelector : String := "[class=\"jobsearch-JobCountAndSortPane-jobCount\"]"

/-- CSS selector of the secondary legacy count indicator (line 215). -/
def secondaryCountSelector : String := "[id=\"searchCountPages\"]"

/-- One visibility wait issued through wait_until_visible: the CSS selector
waited on and the timeout duration passed. -/
structure WaitRequest where
  selector : String
  duration : Nat
deriving DecidableEq

/-- The visibility waits issued by total-count discovery, in order. The
primary wait is always issued with duration 10 (line 204); the secondary
wait with duration 5 (line 215) is issued exactly when the primary tier
fails, whether by timeout or by unparsable text. -/
def countDiscoveryWaits (primary secondary : Option String) : List WaitRequest :=
  match primary.bind parseTotalJobs with
  | some _ => [⟨primaryCountSelector, 10⟩]
  | none => [⟨primaryCountSelector, 10⟩, ⟨secondaryCountSelector, 5⟩]

/-- The normalization applied to the salary and location texts
(lines 274 and 278): strip, then turn newlines into spaces. -/
def normSalary (t : String) : String :=
  pyReplace (pyStrip t) "\n" " "

/-- The normalization applied to the job-type text (line 282): strip, turn
newlines into spaces, drop colons, drop the label Job type, strip again. -/
def normJobType (t : String) : String :=
  pyStrip (pyReplace (pyReplace (pyReplace (pyStrip t) "\n" " ") ":" "") "Job type" "")

/-- The normalization applied to the date-posted text (line 288): strip,
turn newlines into spaces, drop the label Posted. -/
def normDate (t : String) : String :=
  pyReplace (pyReplace (pyStrip t) "\n" " ") "Posted" ""

/-- What the page offers for one card: for each field, the raw text or
attribute when every step of that field strategy (wait, find, index)
succeeds, and none when the strategy chain fails; plus whether the
detail-panel iframe is present and can be entered. -/
structure CardData where
  jobTitleText : Option String
  listingHref : Option String
  salaryText : Option String
  locationText : Option String
  jobTypeText : Option String
  dateText : Option String
  companyText : Option String
  iframePresent : Bool
  reviewsRaw : Option String
deriving DecidableEq

/-- The mutable field variables of get_job_posts (line 236), which double as
the emitted JobPosting record: they are initialized to empty strings once
per page, before the card loop, and persist from one card to the next. -/
structure Fields where
  jobTitle : String
  salary : String
  jobType : String
  location : String
  companyName : String
  datePosted : String
  reviews : String
  jobURL : String
  listingURL : String
deriving DecidableEq

/-- The per-page initialization of the field variables (line 236). -/
def initFields : Fields :=
  ⟨"", "", "", "", "", "", "", "", ""⟩

/-- One card body of the card loop (lines 264-324): each field is guarded by
its own try block; on failure, jobType, datePosted and reviews are assigned
their documented defaults in the except handler, while the other fields are
left untouched (pass), so they keep whatever value the variables already
held. jobURL is assigned, as an alias of the current listingURL, only inside
the companyName try block, so only when that block succeeds. The returned
record is both the emitted JobPosting and the variable state carried into
the next card. -/
def processCard (f : Fields) (c : CardData) : Fields :=
  ⟨match c.jobTitleText with
    | some t => t
    | none => f.jobTitle,
   match c.salaryText with
    | some t => normSalary t
    | none => f.salary,
   match c.jobTypeText with
    | some t => normJobType t
    | none => "Full-Time",
   match c.locationText with
    | some t => normSalary t
    | none => f.location,
   match c.companyText with
    | some t => t
    | none => f.companyName,
   match c.dateText with
    | some t => normDate t
    | none => "Today",
   match c.reviewsRaw with
    | some t => t
    | none => "Reviews Not Found",
   match c.companyText with
    | some _ =>
      (match c.listingHref with
       | some u => u
       | none => f.listingURL)
    | none => f.jobURL,
   match c.listingHref with
    | some u => u
    | none => f.listingURL⟩

/-- The card loop of one page: thread the field variables through the cards
and emit one JobPosting per card. -/
def processCards : Fields → List CardData → List Fields
  | _, [] => []
  | f, c :: cs =>
    let f' := processCard f c
    f' :: processCards f' cs

/-- One page of cards, starting from the per-page initialization. -/
def processPage (cards : List CardData) : List Fields :=
  processCards initFields cards

/-- Every extraction strategy of a card fails: every field source is
absent. -/
def allFail (c : CardData) : Prop :=
  c.jobTitleText = none ∧ c.listingHref = none ∧ c.salaryText = none ∧
  c.locationText = none ∧ c.jobTypeText = none ∧ c.dateText = none ∧
  c.companyText = none ∧ c.reviewsRaw = none

instance (c : CardData) : Decidable (allFail c) := by
  unfold allFail; infer_instance

/-- A card whose only successful extraction is the job title, with text A. -/
def cardTitleA : CardData :=
  ⟨some "A", none, none, none, none, none, none, false, none⟩

/-- A card on which every extraction strategy fails. -/
def cardAllFail : CardData :=
  ⟨none, none, none, none, none, none, none, false, none⟩

/-- A card whose title-link href is present but whose companyName
extraction fails. -/
def cardCompanyFail : CardData :=
  ⟨none, some "urlB", none, none, none, none, none, false, none⟩

/-- PaginationState of get_job_posts: job_count (the URL start offset),
pages_scraped and jobs_scraped (lines 224-226, 233-235). -/
structure PaginationState where
  jobOffset : Nat
  pagesScraped : Nat
  jobsScraped : Nat
deriving DecidableEq

/-- The hardcoded per-Query checkpoint (lines 224-226): job_count = 1510,
pages_scraped = 151, jobs_scraped = 151 * 15. -/
def initPagination : PaginationState :=
  ⟨1510, 151, 151 * 15⟩

/-- One page-loop iteration (lines 233-235): job_count += 10,
pages_scraped += 1, jobs_scraped += 15. -/
def stepPagination (s : PaginationState) : PaginationState :=
  ⟨s.jobOffset + 10, s.pagesScraped + 1, s.jobsScraped + 15⟩

/-- Iterate the page-loop step k times. -/
def stepIterate : Nat → PaginationState → PaginationState
  | 0, s => s
  | k + 1, s => stepIterate k (stepPagination s)

/-- The number of iterations of the page loop (line 227): the length of
range(pages_scraped, number_of_pages), computed once at loop entry. -/
def pageIterCount (s : PaginationState) (pagesTotal : Nat) : Nat :=
  pagesTotal - s.pagesScraped

/-- The states after each of k page-loop iterations, in order. -/
def paginationTrace : PaginationState → Nat → List PaginationState
  | _, 0 => []
  | s, k + 1 => stepPagination s :: paginationTrace (stepPagination s) k

/-- The page-loop trace of one Query with the given pagesTotal. -/
def runPagination (s : PaginationState) (pagesTotal : Nat) : List PaginationState :=
  paginationTrace s (pageIterCount s pagesTotal)

/-- The pagination state after the page loop finishes. -/
def runPaginationFinal (s : PaginationState) (pagesTotal : Nat) : PaginationState :=
  stepIterate (pageIterCount s pagesTotal) s

/-- The while-style reading of the page loop: keep stepping exactly while
pagesScraped < pagesTotal, stop as soon as pagesScraped >= pagesTotal. -/
def loopPagination (N : Nat) (s : PaginationState) : PaginationState :=
  if h : s.pagesScraped < N then loopPagination N (stepPagination s) else s
termination_by N - s.pagesScraped
decreasing_by simp [stepPagination]; omega

/-- The start offsets of the page URLs requested by the loop (line 228):
iteration k requests start = job_count as it stands when the iteration
begins, before the increments. -/
def pageVisitOffsets (N : Nat) : List Nat :=
  (List.range (pageIterCount initPagination N)).map
    (fun k => (stepIterate k initPagination).jobOffset)

/-- The CSV header derived from the JobPosting record keys (lines 322-329),
in key order. -/
def csvHeader : List String :=
  ["Job Title", "Salary", "Job Type", "Location", "Company Name",
   "Date Posted", "Reviews", "Job URL", "Listing URL"]

/-- One CSV record row of an emitted JobPosting, in header order. -/
def postingRow (f : Fields) : List String :=
  [f.jobTitle, f.salary, f.jobType, f.location, f.companyName,
   f.datePosted, f.reviews, f.jobURL, f.listingURL]

/-- The destination store of one Query as a list of CSV rows: none while
the file does not exist. Appending to a nonexistent store creates it with a
header row before the record (line 329); appending to an existing store
adds the record row without rewriting the header (line 331). -/
def appendRecord : Option (List (List String)) → Fields → Option (List (List String))
  | none, f => some [csvHeader, postingRow f]
  | some rows, f => some (rows ++ [postingRow f])

/-- Append a sequence of postings in order, one per extracted card. -/
def appendAllRecords (store : Option (List (List String))) (ps : List Fields) :
    Option (List (List String)) :=
  ps.foldl appendRecord store

/-- One whole-Query run of the page loop against a page oracle giving the
cards of each visited page: fold card extraction and record appending over
the visited pages, starting from a nonexistent destination store. -/
def runQueryStore (N : Nat) (pageCards : Nat → List CardData) :
    Option (List (List String)) :=
  (List.range (pageIterCount initPagination N)).foldl
    (fun store k => appendAllRecords store (processPage (pageCards k))) none

/-- The execution context: the outer page content or the detail iframe. -/
inductive Ctx
  | outer
  | frame
deriving DecidableEq

/-- The context events of one card: one detail-context entry attempt and
one exit call. -/
inductive CtxEvent
  | entryAttempt
  | exitCall
deriving DecidableEq

/-- Detail-context entry (lines 299-308): if the iframe is present and
enterable, switch into it; a failed wait or switch is swallowed and the
context stays where it was. -/
def enterDetail (ctx : Ctx) (c : CardData) : Ctx :=
  if c.iframePresent then Ctx.frame else ctx

/-- Detail-context exit (lines 314-320): switch to the default content
unconditionally, whatever context is current, even when entry failed. -/
def exitDetail : Ctx → Ctx :=
  fun _ => Ctx.outer

/-- Process a list of cards, tracking the execution context and recording
the context events: each card performs exactly one entry attempt followed
by exactly one exit call. -/
def detailRun : Ctx → List CardData → Ctx × List CtxEvent
  | ctx, [] => (ctx, [])
  | ctx, c :: cs =>
    let rest := detailRun (exitDetail (enterDetail ctx c)) cs
    (rest.1, CtxEvent.entryAttempt :: CtxEvent.exitCall :: rest.2)

end IndeedBot

open IndeedBot

/-- The closed form of iterating the page-loop step k times. -/
theorem stepIterate_closed (k : Nat) (s : PaginationState) :
    stepIterate k s = ⟨s.jobOffset + 10 * k, s.pagesScraped + k, s.jobsScraped + 15 * k⟩ := by
  induction k generalizing s with
  | zero => cases s; simp [stepIterate]
  | succ k ih =>
    cases s with
    | mk a b c =>
      show stepIterate k (stepPagination ⟨a, b, c⟩) = _
      rw [ih]
      simp [stepPagination, PaginationState.mk.injEq]
      omega

/-- The page-loop trace has exactly one state per iteration. -/
theorem paginationTrace_length (k : Nat) (s : PaginationState) :
    (paginationTrace s k).length = k := by
  induction k generalizing s with
  | zero => rfl
  | succ k ih => simp [paginationTrace, ih]

/-- The i-th state of the page-loop trace is the checkpoint stepped
i + 1 times. -/
theorem paginationTrace_get (k : Nat) (s : PaginationState) (i : Nat)
    (h : i < (paginationTrace s k).length) :
    (paginationTrace s k).get ⟨i, h⟩ = stepIterate (i + 1) s := by
  induction k generalizing s i with
  | zero => simp [paginationTrace] at h
  | succ k ih =>
    cases i with
    | zero => rfl
    | succ i =>
      exact ih (stepPagination s) i (by
        have hl := paginationTrace_length (k + 1) s
        have hl2 := paginationTrace_length k (stepPagination s)
        omega)

/-- The range-driven page loop computes the same final state as the
while-style loop that stops exactly at pagesScraped >= pagesTotal. -/
theorem loopPagination_eq_iterate (N : Nat) :
    ∀ (k : Nat) (s : PaginationState), pageIterCount s N = k →
      loopPagination N s = stepIterate k s := by
  intro k
  induction k with
  | zero =>
    intro s h
    unfold loopPagination
    have hn : ¬ s.pagesScraped < N := by
      unfold pageIterCount at h; omega
    simp [hn, stepIterate]
  | succ k ih =>
    intro s h
    unfold loopPagination
    have hlt : s.pagesScraped < N := by
      unfold pageIterCount at h; omega
    simp [hlt]
    exact ih (stepPagination s) (by
      unfold pageIterCount at h ⊢
      simp [stepPagination]
      omega)

/-- Appending postings to an existing store only appends record rows, in
posting order, never touching the existing rows. -/
theorem appendAllRecords_some (ps : List Fields) :
    ∀ rows, appendAllRecords (some rows) ps = some (rows ++ ps.map postingRow) := by
  induction ps with
  | nil => intro rows; simp [appendAllRecords]
  | cons p ps ih =>
    intro rows
    show appendAllRecords (some (rows ++ [postingRow p])) ps = _
    rw [ih]
    simp

/-- On a nonempty card list, the detail-context run ends in the outer
context whatever context it starts in. -/
theorem detailRun_fst (cards : List CardData) :
    ∀ ctx : Ctx, cards ≠ [] → (detailRun ctx cards).1 = Ctx.outer := by
  induction cards with
  | nil => intro ctx h; exact absurd rfl h
  | cons c cs ih =>
    intro ctx h
    show (detailRun Ctx.outer cs).1 = Ctx.outer
    cases cs with
    | nil => rfl
    | cons d ds => exact ih Ctx.outer (by simp)

/-- Every card contributes exactly one entry attempt and one exit call. -/
theorem detailRun_counts (cards : List CardData) :
    ∀ ctx : Ctx,
      (detailRun ctx cards).2.count CtxEvent.exitCall = cards.length ∧
      (detailRun ctx cards).2.count CtxEvent.entryAttempt = cards.length := by
  induction cards with
  | nil => intro ctx; exact ⟨rfl, rfl⟩
  | cons c cs ih =>
    intro ctx
    have h := ih (exitDetail (enterDetail ctx c))
    constructor
    · show (CtxEvent.entryAttempt :: CtxEvent.exitCall
          :: (detailRun (exitDetail (enterDetail ctx c)) cs).2).count CtxEvent.exitCall
        = cs.length + 1
      simp [List.count_cons, h.1]
    · show (CtxEvent.entryAttempt :: CtxEvent.exitCall
          :: (detailRun (exitDetail (enterDetail ctx c)) cs).2).count CtxEvent.entryAttempt
        = cs.length + 1
      simp [List.count_cons, h.2]

/-- Claim C1, counterexample: on a page whose first card yields job title A
and whose second card fails every extraction strategy, the JobPosting
emitted for the second card carries jobTitle A, not the documented default
empty string: the field variables are initialized once per page (line 236),
so a failed extraction keeps the value left by an earlier card. -/
theorem c1_default_counterexample :
    allFail cardAllFail ∧
    (processPage [cardTitleA, cardAllFail]).map Fields.jobTitle = ["A", "A"] ∧
    ¬ (processPage [cardTitleA, cardAllFail]).map Fields.jobTitle = ["A", ""] := by
  refine ⟨by decide, by decide, by decide⟩

/-- Claim C1, amended: when every extraction strategy of a card fails, the
handler-assigned fields get their documented defaults (jobType Full-Time,
datePosted Today, reviews Reviews Not Found) on every card, while the
pass-handled fields (jobTitle, salary, location, companyName, jobURL,
listingURL) keep the value the page variables already held, which is the
documented empty-string default only while no earlier card on the same page
has set them; in particular an all-fail first card yields every documented
default. -/
theorem c1_defaults_amended (f : Fields) (c : CardData) (h : allFail c) :
    (processCard f c).jobType = "Full-Time" ∧
    (processCard f c).datePosted = "Today" ∧
    (processCard f c).reviews = "Reviews Not Found" ∧
    (processCard f c).jobTitle = f.jobTitle ∧
    (processCard f c).salary = f.salary ∧
    (processCard f c).location = f.location ∧
    (processCard f c).companyName = f.companyName ∧
    (processCard f c).jobURL = f.jobURL ∧
    (processCard f c).listingURL = f.listingURL ∧
    processCard initFields c = ⟨"", "", "Full-Time", "", "", "Today", "Reviews Not Found", "", ""⟩ := by
  obtain ⟨h1, h2, h3, h4, h5, h6, h7, h8⟩ := h
  simp [processCard, initFields, h1, h2, h3, h4, h5, h6, h7, h8]

/-- Claim C1, witness for the amended theorem at a concrete card. -/
theorem c1_defaults_amended_witness :
    allFail cardAllFail ∧ (processCard initFields cardAllFail).jobType = "Full-Time" :=
  ⟨by decide, (c1_defaults_amended initFields cardAllFail (by decide)).1⟩

/-- Claim C2: the card loop emits exactly one JobPosting per card, whatever
the per-card extraction outcomes are (no card failure aborts the remaining
cards), and each extracted field of a card depends only on that field
source (plus, for jobURL, the title-link href), so one field strategy
failing never changes what the other fields of the same card extract. -/
theorem c2_per_card_isolation :
    (∀ f : Fields, ∀ cards : List CardData,
      (processCards f cards).length = cards.length) ∧
    (∀ (f : Fields) (c c' : CardData),
      (c.jobTitleText = c'.jobTitleText →
        (processCard f c).jobTitle = (processCard f c').jobTitle) ∧
      (c.salaryText = c'.salaryText →
        (processCard f c).salary = (processCard f c').salary) ∧
      (c.locationText = c'.locationText →
        (processCard f c).location = (processCard f c').location) ∧
      (c.jobTypeText = c'.jobTypeText →
        (processCard f c).jobType = (processCard f c').jobType) ∧
      (c.dateText = c'.dateText →
        (processCard f c).datePosted = (processCard f c').datePosted) ∧
      (c.companyText = c'.companyText →
        (processCard f c).companyName = (processCard f c').companyName) ∧
      (c.reviewsRaw = c'.reviewsRaw →
        (processCard f c).reviews = (processCard f c').reviews) ∧
      (c.listingHref = c'.listingHref →
        (processCard f c).listingURL = (processCard f c').listingURL) ∧
      (c.companyText = c'.companyText → c.listingHref = c'.listingHref →
        (processCard f c).jobURL = (processCard f c').jobURL)) := by
  constructor
  · intro f cards
    induction cards generalizing f with
    | nil => rfl
    | cons c cs ih => simp [processCards, ih]
  · intro f c c'
    refine ⟨?_, ?_, ?_, ?_, ?_, ?_, ?_, ?_, ?_⟩ <;>
      (intro h
       try intro h2
       simp only [processCard]
       rw [h]
       try rw [h2])

/-- Claim C2, witness: a one-card page emits one posting, and a card that
fails its title extraction extracts the same salary as a card with the same
absent salary source but a successful title. -/
theorem c2_per_card_isolation_witness :
    (processCards initFields [cardTitleA]).length = 1 ∧
    (processCard initFields cardTitleA).salary = (processCard initFields cardAllFail).salary :=
  ⟨c2_per_card_isolation.1 initFields [cardTitleA],
   (c2_per_card_isolation.2 initFields cardTitleA cardAllFail).2.1 (by decide)⟩

/-- Claim C8, counterexample: on a card whose title-link href is present but
whose companyName extraction fails, the emitted jobURL is the stale previous
value (here the page-initial empty string) while listingURL is the freshly
read href, so jobURL does not equal listingURL on that posting. -/
theorem c8_alias_counterexample :
    (processCard initFields cardCompanyFail).listingURL = "urlB" ∧
    (processCard initFields cardCompanyFail).jobURL = "" ∧
    ¬ (processCard initFields cardCompanyFail).jobURL
        = (processCard initFields cardCompanyFail).listingURL := by
  refine ⟨by decide, by decide, by decide⟩

/-- Claim C8, amended: jobURL is only ever assigned by aliasing the current
listingURL — no independent source element is read for it — but the aliasing
assignment runs only when the companyName extraction succeeds; on a card
where companyName extraction fails, jobURL keeps its previous value
(page-initially empty), which can differ from that card listingURL. -/
theorem c8_alias_amended (f : Fields) (c : CardData) :
    (processCard f c).jobURL =
      (match c.companyText with
       | some _ => (processCard f c).listingURL
       | none => f.jobURL) := by
  rcases h : c.companyText with _ | t <;> simp [processCard, h]

/-- Claim C6: the primary count-indicator text 1,234 jobs Page 1 of parses
to totalJobs 1234 (thousands separator and prose stripped, first integer
token taken) and yields pagesTotal round(1234 / 10) = 123. -/
theorem c6_count_parse_scenarioA :
    parseTotalJobs "1,234 jobs Page 1 of" = some 1234 ∧
    discoverPages (some "1,234 jobs Page 1 of") none = 123 ∧
    pythonRound10 1234 = 123 := by
  refine ⟨by decide, by decide, by decide⟩

/-- Claim C7: when the primary count indicator times out and the secondary
legacy indicator also times out, pagesTotal is the fixed default 25. -/
theorem c7_default_pages : discoverPages none none = 25 := rfl

/-- Claim C3: across the per-page loop of one Query, every state of the
loop trace advances jobOffset by exactly stride 10 and pagesScraped by
exactly 1 per page, in lockstep (jobOffset = 10 * pagesScraped throughout),
the i-th iteration runs exactly when the state entering it satisfies
pagesScraped < pagesTotal, and the range-driven loop equals the while-style
loop that stops exactly when pagesScraped >= pagesTotal, whose final state
satisfies pagesScraped >= pagesTotal. -/
theorem c3_pagination_lockstep (N : Nat) :
    (runPagination initPagination N).length = N - 151 ∧
    (∀ i : Nat, i < N - 151 ↔ 151 + i < N) ∧
    (∀ (i : Nat) (h : i < (runPagination initPagination N).length),
      ((runPagination initPagination N).get ⟨i, h⟩).jobOffset = 1510 + 10 * (i + 1) ∧
      ((runPagination initPagination N).get ⟨i, h⟩).pagesScraped = 151 + (i + 1) ∧
      ((runPagination initPagination N).get ⟨i, h⟩).jobOffset
        = 10 * ((runPagination initPagination N).get ⟨i, h⟩).pagesScraped) ∧
    runPaginationFinal initPagination N = loopPagination N initPagination ∧
    N ≤ (runPaginationFinal initPagination N).pagesScraped := by
  refine ⟨paginationTrace_length _ _, fun i => by omega, ?_, ?_, ?_⟩
  · intro i h
    have hrec : (runPagination initPagination N).get ⟨i, h⟩
        = ⟨1510 + 10 * (i + 1), 151 + (i + 1), 151 * 15 + 15 * (i + 1)⟩ := by
      show (paginationTrace initPagination (pageIterCount initPagination N)).get ⟨i, h⟩ = _
      rw [paginationTrace_get, stepIterate_closed]
      rfl
    rw [hrec]
    refine ⟨rfl, rfl, ?_⟩
    show 1510 + 10 * (i + 1) = 10 * (151 + (i + 1))
    omega
  · exact (loopPagination_eq_iterate N (pageIterCount initPagination N) initPagination rfl).symm
  · show N ≤ (stepIterate (pageIterCount initPagination N) initPagination).pagesScraped
    rw [stepIterate_closed]
    show N ≤ 151 + (N - 151)
    omega

/-- Claim C3, witness at pagesTotal 153: the first loop iteration advances
the checkpoint to jobOffset 1520 and pagesScraped 152. -/
theorem c3_pagination_lockstep_witness :
    ((runPagination initPagination 153).get ⟨0, by decide⟩).jobOffset = 1520 ∧
    ((runPagination initPagination 153).get ⟨0, by decide⟩).pagesScraped = 152 :=
  ⟨((c3_pagination_lockstep 153).2.2.1 0 (by decide)).1,
   ((c3_pagination_lockstep 153).2.2.1 0 (by decide)).2.1⟩

/-- Claim C4: appending N postings to a fresh (nonexistent) destination
yields exactly the header row followed by the N record rows in extraction
order - N + 1 rows, with the header written exactly once by the first
append and never rewritten by later appends. -/
theorem c4_sink_append (ps : List Fields) (h : ps ≠ []) :
    appendAllRecords none ps = some (csvHeader :: ps.map postingRow) ∧
    (csvHeader :: ps.map postingRow).length = ps.length + 1 := by
  constructor
  · cases ps with
    | nil => exact absurd rfl h
    | cons p ps =>
      show appendAllRecords (some [csvHeader, postingRow p]) ps = _
      rw [appendAllRecords_some]
      simp
  · simp

/-- Claim C4, witness: appending two postings to a fresh destination yields
the header row plus the two record rows. -/
theorem c4_sink_append_witness :
    appendAllRecords none [initFields, initFields]
      = some [csvHeader, postingRow initFields, postingRow initFields] :=
  (c4_sink_append [initFields, initFields] (by decide)).1

/-- Claim C5: detail-context entry and exit are always paired - over any
sequence of cards the number of exit calls equals the number of entry
attempts (one of each per card), the exit runs unconditionally even when
entry failed (the run ends outer from any starting context), and the outer
context is active before the first card (the run starts at outer) and after
the last card. -/
theorem c5_context_pairing (cards : List CardData) :
    (detailRun Ctx.outer cards).1 = Ctx.outer ∧
    (detailRun Ctx.outer cards).2.count CtxEvent.exitCall
      = (detailRun Ctx.outer cards).2.count CtxEvent.entryAttempt ∧
    (detailRun Ctx.outer cards).2.count CtxEvent.entryAttempt = cards.length ∧
    (∀ ctx : Ctx, cards ≠ [] → (detailRun ctx cards).1 = Ctx.outer) := by
  refine ⟨?_, ?_, (detailRun_counts cards Ctx.outer).2, fun ctx h => detailRun_fst cards ctx h⟩
  · cases cards with
    | nil => rfl
    | cons c cs => exact detailRun_fst (c :: cs) Ctx.outer (by simp)
  · rw [(detailRun_counts cards Ctx.outer).1, (detailRun_counts cards Ctx.outer).2]

/-- Claim C5, witness: even starting from the frame context, processing one
card ends in the outer context. -/
theorem c5_context_pairing_witness :
    (detailRun Ctx.frame [cardAllFail]).1 = Ctx.outer :=
  (c5_context_pairing [cardAllFail]).2.2.2 Ctx.frame (by decide)

/-- Claim C9, counterexample: when both count indicators fail, the waits
issued are the primary wait with duration 10 and the secondary wait with
duration 5 - not a primary wait of duration 30 as claimed. -/
theorem c9_wait_durations_counterexample :
    countDiscoveryWaits none none
      = [⟨primaryCountSelector, 10⟩, ⟨secondaryCountSelector, 5⟩] ∧
    ¬ countDiscoveryWaits none none
      = [⟨primaryCountSelector, 30⟩, ⟨secondaryCountSelector, 5⟩] := by
  refine ⟨by decide, by decide⟩

/-- Claim C9, amended: total-count discovery waits up to 10 time-units (not
30) for the primary count indicator - the first wait issued is always the
primary one with duration 10 - and up to 5 time-units for the secondary
legacy indicator before falling back to the fixed default of 25 pages. -/
theorem c9_wait_durations_amended :
    (∀ p s : Option String,
      (countDiscoveryWaits p s).head? = some ⟨primaryCountSelector, 10⟩) ∧
    countDiscoveryWaits none none
      = [⟨primaryCountSelector, 10⟩, ⟨secondaryCountSelector, 5⟩] ∧
    discoverPages none none = 25 := by
  refine ⟨?_, rfl, rfl⟩
  intro p s
  cases hp : p.bind parseTotalJobs <;> simp [countDiscoveryWaits, hp]

/-- Claim C10: because the checkpoint is hardcoded to pagesScraped = 151
(jobOffset = 1510) and the page loop runs over range(pagesScraped,
pagesTotal), any Query whose pagesTotal is at most 151 executes the loop
body zero times: no page navigation is issued, no state is traced, and no
record is ever appended to the destination store. -/
theorem c10_checkpoint_skips_all (N : Nat) (pageCards : Nat → List CardData)
    (h : N ≤ 151) :
    pageVisitOffsets N = [] ∧
    runPagination initPagination N = [] ∧
    runQueryStore N pageCards = none := by
  have h0 : pageIterCount initPagination N = 0 := by
    simp only [pageIterCount, initPagination]
    omega
  refine ⟨?_, ?_, ?_⟩
  · unfold pageVisitOffsets
    rw [h0]
    rfl
  · unfold runPagination
    rw [h0]
    rfl
  · unfold runQueryStore
    rw [h0]
    rfl

/-- Claim C10, witness: with the fallback default pagesTotal = 25 (at most
151), no page is visited and the destination store is never created. -/
theorem c10_checkpoint_skips_all_witness :
    discoverPages none none ≤ 151 ∧
    pageVisitOffsets (discoverPages none none) = [] ∧
    runQueryStore (discoverPages none none) (fun _ => []) = none :=
  ⟨by decide,
   (c10_checkpoint_skips_all (discoverPages none none) (fun _ => []) (by decide)).1,
   (c10_checkpoint_skips_all (discoverPages none none) (fun _ => []) (by decide)).2.2⟩
